import Mathlib

/-!
Verification development for the Reddit sentiment crawler
(src/reddit_scraper.py).  The Python source is shallowly embedded:
the browser (Selenium WebDriver) is modelled as an oracle environment,
Python dicts as association lists, and the crawl loops as fuel-indexed
structural recursion.  Machine behaviour that the source delegates to
external libraries (VADER scoring, `hash`) is abstracted as oracle
parameters of the environment.
-/

namespace RedditScraper

/-! ### String helpers mirroring Python primitives used by the source -/

/-- Model of Python `str.strip()`: drop whitespace from both ends. -/
def py_strip (s : String) : String :=
  String.mk (((s.data.dropWhile Char.isWhitespace).reverse.dropWhile
    Char.isWhitespace).reverse)

/-- Model of Python `needle in hay` on lists of characters. -/
def containsSub : List Char → List Char → Bool
  | [], needle => needle.isEmpty
  | c :: rest, needle => needle.isPrefixOf (c :: rest) || containsSub rest needle

/-- Model of Python `needle in hay` for strings. -/
def str_contains (hay needle : String) : Bool :=
  containsSub hay.data needle.data

/-- Model of Python `str.title()` for ASCII text: the first alphabetic
character of each run is uppercased, the rest lowercased. -/
def strTitleAux : List Char → Bool → List Char
  | [], _ => []
  | c :: cs, prevAlpha =>
    if c.isAlpha then
      (if prevAlpha then c.toLower else c.toUpper) :: strTitleAux cs true
    else c :: strTitleAux cs false

/-- Model of Python `str.title()`. -/
def str_title (s : String) : String := String.mk (strTitleAux s.data false)

/-- Drops `prefixChars` from the front of a character list, or fails. -/
def dropPrefixChars : List Char → List Char → Option (List Char)
  | [], l => some l
  | _ :: _, [] => none
  | p :: ps, c :: cs => if c = p then dropPrefixChars ps cs else none

/-- Model of Python `str.split(sep)` for a non-empty separator, with fuel
(the input length, which a scan consuming one character per step never
exhausts); empty segments are kept, as Python does. -/
def pySplitAux (sep : List Char) : Nat → List Char → List Char → List (List Char)
  | 0, l, acc => [acc.reverse ++ l]
  | _ + 1, [], acc => [acc.reverse]
  | fuel + 1, c :: rest, acc =>
    match dropPrefixChars sep (c :: rest) with
    | some tail => acc.reverse :: pySplitAux sep fuel tail []
    | none => pySplitAux sep fuel rest (c :: acc)

/-- Model of Python `s.split(sep)`. -/
def py_split (s sep : String) : List String :=
  (pySplitAux sep.data s.data.length s.data []).map String.mk

/-- Model of Python `s.replace(old, new)` for a non-empty `old`:
left-to-right, non-overlapping, with fuel as in `pySplitAux`. -/
def pyReplaceAux (old new : List Char) : Nat → List Char → List Char
  | 0, l => l
  | _ + 1, [] => []
  | fuel + 1, c :: rest =>
    match dropPrefixChars old (c :: rest) with
    | some tail => new ++ pyReplaceAux old new fuel tail
    | none => c :: pyReplaceAux old new fuel rest

/-- Model of Python `s.replace(old, new)`. -/
def py_replace (s old new : String) : String :=
  String.mk (pyReplaceAux old.data new.data s.data.length s.data)

/-- Model of Python `s.lower()` for ASCII text. -/
def py_lower (s : String) : String := String.mk (s.data.map Char.toLower)

/-- Model of Python `sep.join(l)`. -/
def py_join (sep : String) : List String → String
  | [] => ""
  | [x] => x
  | x :: xs => x ++ sep ++ py_join sep xs

/-- Decimal digits of a natural number, with fuel. -/
def natReprAux : Nat → Nat → List Char
  | 0, _ => []
  | fuel + 1, n =>
    if n < 10 then [Char.ofNat (48 + n)]
    else natReprAux fuel (n / 10) ++ [Char.ofNat (48 + n % 10)]

/-- Model of Python `str(n)` for a natural number. -/
def nat_repr (n : Nat) : String := String.mk (natReprAux (n + 1) n)

/-- The characters of the literal `page=` searched for by the pagination
regular expressions `page=(\d+)` and `page=\d+`. -/
def pageEq : List Char := ['p', 'a', 'g', 'e', '=']

/-- Numeric value of a digit run, as computed by Python `int`. -/
def digitsToNat (l : List Char) : Nat :=
  l.foldl (fun a c => 10 * a + (c.toNat - 48)) 0

/-- Model of `re.search(r'page=(\d+)', s)`: scan left to right for the
first occurrence of `page=` followed by at least one digit and return the
value of the maximal digit run. -/
def pageSearchAux : List Char → Option Nat
  | [] => none
  | c :: rest =>
    match dropPrefixChars pageEq (c :: rest) with
    | some (d :: tail) =>
      if d.isDigit then some (digitsToNat (d :: tail.takeWhile Char.isDigit))
      else pageSearchAux rest
    | _ => pageSearchAux rest

/-- Model of `re.search(r'page=(\d+)', s)` on strings. -/
def page_search (s : String) : Option Nat := pageSearchAux s.data

/-- Replacement text `page=k`. -/
def pageChars (k : Nat) : List Char := pageEq ++ (nat_repr k).data

/-- Model of `re.sub(r'page=\d+', 'page=k', s)`: every non-overlapping
occurrence of `page=` followed by digits is replaced; the fuel argument is
the length of the input, which a scan consuming at least one character per
step never exhausts. -/
def pageSubAux (k : Nat) : Nat → List Char → List Char
  | 0, l => l
  | _ + 1, [] => []
  | fuel + 1, c :: rest =>
    match dropPrefixChars pageEq (c :: rest) with
    | some (d :: tail) =>
      if d.isDigit then pageChars k ++ pageSubAux k fuel (tail.dropWhile Char.isDigit)
      else c :: pageSubAux k fuel rest
    | _ => c :: pageSubAux k fuel rest

/-- Model of `re.sub(r'page=\d+', 'page=' + toString k, s)`. -/
def page_sub (s : String) (k : Nat) : String :=
  String.mk (pageSubAux k s.data.length s.data)

/-- Model of `re.search(r"/r/([^/]+)", url)` from `_extract_post_subreddit`:
scan for `/r/` followed by at least one character other than `/` and
return the maximal such run. -/
def r_search : List Char → Option String
  | '/' :: 'r' :: '/' :: c :: rest =>
    if c = '/' then r_search ('r' :: '/' :: c :: rest)
    else some (String.mk (c :: rest.takeWhile (fun d => d ≠ '/')))
  | _ :: rest => r_search rest
  | [] => none

/-! ### Sentiment values and the scoring entry point -/

/-- The four-component polarity record returned by the scoring stage
(`polarity_scores`).  The scoring algorithm itself is external, so scores
are opaque rational values. -/
structure Sent where
  compound : ℚ
  pos : ℚ
  neu : ℚ
  neg : ℚ
deriving DecidableEq, Repr

/-- The zero sentiment record produced for empty input and as the final
fallback of `_extract_post_content`. -/
def zeroSent : Sent := ⟨0, 0, 0, 0⟩

/-- Model of `analyze_sentiment` (src/reddit_scraper.py lines 153-158): the
argument is an optional string so that the Python `None`-equivalent is
representable; `if not text` is true exactly for `None` and the empty
string. -/
def analyze_sentiment (scorer : String → Sent) : Option String → Sent
  | none => zeroSent
  | some t => if t = "" then zeroSent else scorer t

/-! ### Python dicts as association lists -/

/-- A value stored in the `post_data` dict: a string field or the
sentiment record. -/
inductive Val where
  | str (s : String)
  | sent (v : Sent)
deriving DecidableEq, Repr

/-- The `post_data` dictionary, in insertion order. -/
abbrev PostDict := List (String × Val)

/-- Python dict assignment `d[k] = v`: update in place when the key
exists, append otherwise. -/
def dictSet : PostDict → String → Val → PostDict
  | [], k, v => [(k, v)]
  | (k', v') :: rest, k, v =>
    if k' = k then (k, v) :: rest else (k', v') :: dictSet rest k v

/-- Python `d.get(k)`. -/
def dictGet : PostDict → String → Option Val
  | [], _ => none
  | (k', v') :: rest, k => if k' = k then some v' else dictGet rest k

/-- Python `k in d`. -/
def hasKey (d : PostDict) (k : String) : Bool := (dictGet d k).isSome

/-! ### The rendered item page as an oracle environment

The Selenium driver is external; each way the source interrogates the
rendered page becomes one oracle field.  `css sel` is the text (`.text`,
un-stripped) of the first element matching `sel`, or `none` when
`find_element` raises `NoSuchElementException`.  Each distinct JavaScript
extraction script becomes one optional result (`none` models a `null`
return).  `urlHash` stands for Python's process-seeded `hash`. -/

/-- Class and id attributes of one node on an ancestor chain, with the
`or ""` defaulting of `_is_in_ui_area` already applied. -/
structure UINode where
  cls : String
  idAttr : String

/-- A paragraph element: its text and the chain of nodes walked by
`_is_in_ui_area`, starting at the element itself. -/
structure Para where
  text : String
  chain : List UINode

/-- Oracle view of the rendered post page. -/
structure Dom where
  css : String → Option String
  jsTitle : Option String
  jsAuthor : Option String
  jsDate : Option String
  jsContent : Option String
  jsVotes : Option String
  jsComments : Option String
  paragraphs : List Para
  urlHash : String → Nat

/-- Runs a selector list the way the title/author/subreddit/date/content
loops do: first element found whose stripped text is non-empty wins. -/
def firstNonEmptyCss (dom : Dom) : List String → Option String
  | [] => none
  | sel :: rest =>
    match dom.css sel with
    | some t => if py_strip t = "" then firstNonEmptyCss dom rest else some (py_strip t)
    | none => firstNonEmptyCss dom rest

/-- Runs a selector list the way the votes/comments loops do: the first
element found wins even when its stripped text is empty. -/
def firstFoundCss (dom : Dom) : List String → Option String
  | [] => none
  | sel :: rest =>
    match dom.css sel with
    | some t => some (py_strip t)
    | none => firstFoundCss dom rest

/-- Python truthiness filter on an optional string (`if x:`). -/
def truthy : Option String → Option String
  | some s => if s = "" then none else some s
  | none => none

/-! ### Field extractors of the Item Extractor -/

/-- Model of `_extract_post_id` (lines 456-466); `urlHash` abstracts
Python's `hash`. -/
def extract_post_id (urlHash : String → Nat) (url : String) : String :=
  if str_contains url "/comments/" then
    let parts := py_split url "/comments/"
    if parts.length > 1 then (py_split (parts.getD 1 "") "/").headD ""
    else nat_repr (urlHash url % 10000)
  else nat_repr (urlHash url % 10000)

/-- Selector list of `_extract_post_title`. -/
def title_selectors : List String :=
  ["h1", "h1[slot=\x27title\x27]", ".title a", "[data-testid=\x27post-title\x27]"]

/-- Model of `_extract_post_title` (lines 551-605): selectors, then the
JavaScript lookup, then the URL-derived fallback, then `Post <id>`. -/
def extract_post_title (dom : Dom) (post_url post_id : String) : String :=
  match firstNonEmptyCss dom title_selectors with
  | some t => t
  | none =>
    match truthy dom.jsTitle with
    | some t => t
    | none =>
      let url_parts := py_split post_url "/"
      if url_parts.length > 1 then
        let potential :=
          if url_parts.getLastD "" = "" then url_parts.getD (url_parts.length - 2) ""
          else url_parts.getLastD ""
        str_title (py_replace (py_replace potential "_" " ") "-" " ")
      else "Post " ++ post_id

/-- Selector list of `_extract_post_author`. -/
def author_selectors : List String :=
  ["a[data-testid=\x27post_author\x27]", "a[slot=\x27author\x27]", ".author", "a.author"]

/-- Model of `_extract_post_author` (lines 607-656). -/
def extract_post_author (dom : Dom) : String :=
  match firstNonEmptyCss dom author_selectors with
  | some a => a
  | none =>
    match truthy dom.jsAuthor with
    | some a => a
    | none => "Unknown"

/-- Selector list of `_extract_post_subreddit`. -/
def subreddit_selectors : List String :=
  ["a[data-testid=\x27subreddit-link\x27]", "a[slot=\x27subreddit-name\x27]",
   ".subreddit", "a.subreddit"]

/-- Model of `_extract_post_subreddit` (lines 658-686): selectors, then the
`/r/([^/]+)` search on the URL, then the sentinel. -/
def extract_post_subreddit (dom : Dom) (post_url : String) : String :=
  match firstNonEmptyCss dom subreddit_selectors with
  | some s => s
  | none =>
    if str_contains post_url "/r/" then
      match r_search post_url.data with
      | some g => "r/" ++ g
      | none => "Unknown Subreddit"
    else "Unknown Subreddit"

/-- Selector list of `_extract_post_date`. -/
def date_selectors : List String :=
  ["span[data-testid=\x27post_timestamp\x27]", "span[slot=\x27posted-time\x27]",
   "time", ".tagline time"]

/-- Model of `_extract_post_date` (lines 688-737). -/
def extract_post_date (dom : Dom) : String :=
  match firstNonEmptyCss dom date_selectors with
  | some d => d
  | none =>
    match truthy dom.jsDate with
    | some d => d
    | none => "Unknown Date"

/-- The UI-region denylist of `_is_in_ui_area`. -/
def ui_indicators : List String :=
  ["header", "footer", "sidebar", "navigation", "nav", "menu",
   "comment", "toolbar", "banner", "ad", "widget", "modal",
   "popup", "overlay", "tooltip", "community-widget"]

/-- Model of `_is_in_ui_area` (lines 899-927): the element and up to four
ancestors are checked against the denylist on class or id. -/
def is_in_ui_area (p : Para) : Bool :=
  (p.chain.take 5).any fun nd =>
    ui_indicators.any fun ind =>
      str_contains (py_lower nd.cls) ind || str_contains (py_lower nd.idAttr) ind

/-- Selector list of `_extract_post_text_content`. -/
def content_selectors : List String :=
  ["div[data-test-id=\x27post-content\x27]", "div[slot=\x27text-body\x27]",
   "[data-click-id=\x27text\x27]", "div.md", ".sitetable .usertext-body"]

/-- Model of `_extract_post_text_content` (lines 739-814): selectors, then
the JavaScript lookup, then the filtered-paragraph join, else the empty
string. -/
def extract_post_text_content (dom : Dom) : String :=
  match firstNonEmptyCss dom content_selectors with
  | some c => c
  | none =>
    match truthy dom.jsContent with
    | some c => c
    | none =>
      let content_paragraphs :=
        (dom.paragraphs.filter fun p =>
          ¬ (py_strip p.text).length < 20 && ¬ is_in_ui_area p).map
          fun p => py_strip p.text
      if content_paragraphs.isEmpty then ""
      else py_join "\n\n" content_paragraphs

/-- Selector list for votes in `_extract_post_metadata`. -/
def vote_selectors : List String :=
  ["div[id^=\x27vote-arrows-\x27]", "faceplate-number[slot=\x27upvote-count\x27]",
   ".score.unvoted", ".score"]

/-- Selector list for the comment count in `_extract_post_metadata`. -/
def comment_selectors : List String :=
  ["span[data-click-id=\x27comments\x27]", "span[slot=\x27comment-count\x27]",
   ".comments", "a.comments"]

/-- The votes part of `_extract_post_metadata` (lines 819-856): the first
found element sets `votes` (even to empty text); only when no selector
found one and the key is still absent does the truthy JavaScript result
set it. -/
def metaVotesStep (dom : Dom) (d0 : PostDict) : PostDict :=
  let d1 :=
    match firstFoundCss dom vote_selectors with
    | some v => dictSet d0 "votes" (.str v)
    | none => d0
  if hasKey d1 "votes" then d1
  else
    match truthy dom.jsVotes with
    | some v => dictSet d1 "votes" (.str v)
    | none => d1

/-- The comment-count part of `_extract_post_metadata` (lines 858-895),
with the same structure as the votes part. -/
def metaCommentsStep (dom : Dom) (d0 : PostDict) : PostDict :=
  let d1 :=
    match firstFoundCss dom comment_selectors with
    | some v => dictSet d0 "comments_count" (.str v)
    | none => d0
  if hasKey d1 "comments_count" then d1
  else
    match truthy dom.jsComments with
    | some v => dictSet d1 "comments_count" (.str v)
    | none => d1

/-- Model of `_extract_post_metadata` (lines 816-897): `votes` and
`comments_count` are set only when a CSS strategy finds an element or the
JavaScript fallback returns truthy text; otherwise the key stays absent. -/
def extract_post_metadata (dom : Dom) (d0 : PostDict) : PostDict :=
  metaCommentsStep dom (metaVotesStep dom d0)

/-- Python truthiness of a dict entry as read by `post_data.get(k)` at the
sentiment step (`content` and `title` always hold strings). -/
def truthyVal : Option Val → Option String
  | some (.str s) => if s = "" then none else some s
  | _ => none

/-- The identity and field assignments of `_extract_post_content` (lines
507-529): the four identity entries followed by the five field
extractions, in source order. -/
def post_data_fields (dom : Dom) (post_url language now : String) : PostDict :=
  let post_id := extract_post_id dom.urlHash post_url
  let d : PostDict :=
    [("post_id", Val.str post_id), ("post_url", Val.str post_url),
     ("language", Val.str language), ("scraped_at", Val.str now)]
  let d := dictSet d "title" (.str (extract_post_title dom post_url post_id))
  let d := dictSet d "author" (.str (extract_post_author dom))
  let d := dictSet d "subreddit" (.str (extract_post_subreddit dom post_url))
  let d := dictSet d "post_date" (.str (extract_post_date dom))
  dictSet d "content" (.str (extract_post_text_content dom))

/-- The `post_data` dict built by the body of `_extract_post_content`
(lines 507-540 of src/reddit_scraper.py) once navigation succeeded:
identity fields, the six field extractions, metadata, then the sentiment
record computed from `content` if truthy, else `title`, else zero. -/
def build_post_data (dom : Dom) (scorer : String → Sent)
    (post_url language now : String) : PostDict :=
  let d := extract_post_metadata dom (post_data_fields dom post_url language now)
  let sentiment :=
    match truthyVal (dictGet d "content") with
    | some c => analyze_sentiment scorer (some c)
    | none =>
      match truthyVal (dictGet d "title") with
      | some t => analyze_sentiment scorer (some t)
      | none => zeroSent
  dictSet d "sentiment" (.sent sentiment)

/-! ### Pagination Resolver -/

/-- Outcome of `find_element` on a pagination control: absent
(`NoSuchElementException`), or found with its `disabled` attribute, tag
name, and `href` attribute (an `<a>` without `href` yields `none`). -/
inductive ElemResult where
  | absent
  | found (disabled : Option String) (tagName : String) (href : Option String)

/-- Oracle view of the listing page as interrogated by
`_find_next_page_or_load_more`: lookup of next controls per selector,
presence of a load-more control per selector, the URLs the driver reports
after a click, and the item counts before and after the probe scroll. -/
structure PageEnv where
  elem : String → ElemResult
  loadMore : String → Bool
  urlAfterNextClick : String
  urlAfterLoadMore : String
  oldCount : Nat
  newCount : Nat
  currentUrl : String

/-- Selector list of pagination strategy 1 (next controls). -/
def next_button_selectors : List String :=
  ["button[aria-label=\x27Next\x27]", "a.next-button", "span.next-button a",
   "a[rel=\x27next\x27]", ".nav-buttons .next-button a", "a.next"]

/-- Selector list of pagination strategy 2 (load-more controls). -/
def load_more_selectors : List String :=
  ["button:contains(\x27Load more\x27)", "button.MoreCommentsLink",
   "a:contains(\x27load more\x27)", "button[data-click-id=\x27load-more\x27]",
   "button.button:contains(\x27More\x27)"]

/-- Strategy 1 of `_find_next_page_or_load_more` (lines 932-963): the
first matching non-disabled control decides the outcome — for a link its
`href` is returned as-is (Python `None` when the attribute is missing),
for a button the post-click location.  The outer `none` means every
selector was exhausted. -/
def nextFromSelectors (env : PageEnv) : List String → Option (Option String)
  | [] => none
  | sel :: rest =>
    match env.elem sel with
    | .absent => nextFromSelectors env rest
    | .found disabled tag href =>
      if disabled = some "true" then nextFromSelectors env rest
      else if py_lower tag = "a" then some href
      else some (some env.urlAfterNextClick)

/-- Strategy 2 (lines 965-993): whether any load-more selector or text
match finds a control. -/
def loadMoreHit (env : PageEnv) : List String → Bool
  | [] => false
  | sel :: rest => if env.loadMore sel then true else loadMoreHit env rest

/-- Model of `_find_next_page_or_load_more` (lines 929-1023): the four
strategies in priority order.  Strategy 3 compares item counts around a
scroll; strategy 4 increments a numeric `page` parameter or appends
`page=2`. -/
def find_next_page_or_load_more (env : PageEnv) : Option String :=
  match nextFromSelectors env next_button_selectors with
  | some r => r
  | none =>
    if loadMoreHit env load_more_selectors then some env.urlAfterLoadMore
    else if env.oldCount < env.newCount then some env.currentUrl
    else
      match page_search env.currentUrl with
      | some n => some (page_sub env.currentUrl (n + 1))
      | none =>
        if env.currentUrl.data.contains '?' then some (env.currentUrl ++ "&page=2")
        else some (env.currentUrl ++ "?page=2")

/-- The first three pagination strategies all fail on this page: no next
control is found non-disabled, no load-more control is found, and the
probe scroll does not increase the item count. -/
def firstThreeFail (env : PageEnv) : Prop :=
  nextFromSelectors env next_button_selectors = none ∧
  loadMoreHit env load_more_selectors = false ∧
  env.newCount ≤ env.oldCount

/-! ### Crawl Orchestrator -/

/-- Mutable crawl state owned by the analyzer object: the global
`visited_urls` set (as a stack, newest first), `all_posts` and
`post_count` per language, plus instrumentation that records every
`driver.get` (`navLog`), every listing fetch (`listingLog`) and the number
of pagination-resolver calls. -/
structure RunState where
  visited : List String
  navLog : List String
  listingLog : List String
  resolverCalls : Nat
  allPosts : String → List PostDict
  postCount : String → Nat

/-- State at `__init__`: empty visited set, no posts, zero counters. -/
def initState : RunState :=
  { visited := [], navLog := [], listingLog := [], resolverCalls := 0,
    allPosts := fun _ => [], postCount := fun _ => 0 }

/-- Oracle environment for a whole run: what the rendered site yields at
each URL.  `pageFails` models a navigation/content fault on a listing
page, `postFound` the three-tier post-presence detection, `postLinks` and
`postLinksRetry` the two link-extraction attempts, `navFails` a fault
while opening a post, `domFor`/`pageEnv` the rendered pages, `nowFor` the
clock and `scorer` the external VADER scorer. -/
structure CrawlEnv where
  pageFails : String → Bool
  postFound : String → Bool
  postLinks : String → List String
  postLinksRetry : String → List String
  navFails : String → Bool
  domFor : String → Dom
  pageEnv : String → PageEnv
  nowFor : String → String
  scorer : String → Sent

/-- Fixed scraping bounds and topic list taken from the configuration. -/
structure Config where
  maxPages : Nat
  maxPosts : Nat
  languages : List String

/-- Visiting a listing page: the URL is added to `visited_urls` before
navigation (line 241), then `driver.get` runs. -/
def navListing (u : String) (s : RunState) : RunState :=
  { s with visited := u :: s.visited, navLog := u :: s.navLog,
           listingLog := u :: s.listingLog }

/-- Visiting a post page inside `_extract_post_content`: the URL is added
to `visited_urls` (line 474), then `driver.get` runs. -/
def navPost (u : String) (s : RunState) : RunState :=
  { s with visited := u :: s.visited, navLog := u :: s.navLog }

/-- A successful extraction appends the post to the language's sequence
and increments its counter (lines 353-354). -/
def appendPost (language : String) (d : PostDict) (s : RunState) : RunState :=
  { s with
    allPosts := fun l => if l = language then s.allPosts l ++ [d] else s.allPosts l,
    postCount := fun l => if l = language then s.postCount l + 1 else s.postCount l }

/-- Model of `_extract_post_content` (lines 468-549): already-visited URLs
are refused before the visited-set insertion and navigation; a navigation
fault yields `none`; otherwise the populated `post_data` dict. -/
def extract_post_content (env : CrawlEnv) (post_url language : String)
    (s : RunState) : Option PostDict × RunState :=
  if post_url ∈ s.visited then (none, s)
  else
    let s1 := navPost post_url s
    if env.navFails post_url then (none, s1)
    else
      (some (build_post_data (env.domFor post_url) env.scorer post_url language
        (env.nowFor post_url)), s1)

/-- The per-post loop of `scrape_subreddit` (lines 339-365): stop at the
post budget, skip visited URLs, append each successfully extracted post. -/
def processPosts (env : CrawlEnv) (cfg : Config) (language : String) :
    List String → RunState → RunState
  | [], s => s
  | post_url :: rest, s =>
    if cfg.maxPosts ≤ s.postCount language then s
    else if post_url ∈ s.visited then processPosts env cfg language rest s
    else
      match extract_post_content env post_url language s with
      | (some d, s1) => processPosts env cfg language rest (appendPost language d s1)
      | (none, s1) => processPosts env cfg language rest s1

/-- One iteration body of the `scrape_subreddit` while-loop once the
visited check passed: fetch the listing, detect posts, extract links
(with one retry), visit the posts, then ask the pagination resolver.  The
second component is `some next` exactly when the loop continues with a
truthy `next_url` different from the current one (lines 370-375); `none`
is every `break`. -/
def scrapeStep (env : CrawlEnv) (cfg : Config) (language url : String)
    (s : RunState) : RunState × Option String :=
  let s1 := navListing url s
  if env.pageFails url then (s1, none)
  else if ¬ env.postFound url then (s1, none)
  else
    let links :=
      if (env.postLinks url).isEmpty then env.postLinksRetry url
      else env.postLinks url
    if links.isEmpty then (s1, none)
    else
      let s2 := processPosts env cfg language links s1
      let s3 := { s2 with resolverCalls := s2.resolverCalls + 1 }
      match find_next_page_or_load_more (env.pageEnv url) with
      | some u => if u ≠ "" ∧ u ≠ url then (s3, some u) else (s3, none)
      | none => (s3, none)

/-- The `scrape_subreddit` while-loop (lines 232-379), fuel-indexed: the
guard re-checks a truthy `current_url`, `page_num <= max_pages` and the
language's post budget; an already-visited current URL breaks; otherwise
the step body runs and the loop continues at `page_num + 1` when the
resolver produced a fresh URL. -/
def scrapeLoop (env : CrawlEnv) (cfg : Config) (language : String) :
    Nat → String → Nat → RunState → RunState
  | 0, _, _, s => s
  | fuel + 1, url, page_num, s =>
    if url ≠ "" ∧ page_num ≤ cfg.maxPages ∧ s.postCount language < cfg.maxPosts then
      if url ∈ s.visited then s
      else
        match scrapeStep env cfg language url s with
        | (s', some u) => scrapeLoop env cfg language fuel u (page_num + 1) s'
        | (s', none) => s'
    else s

/-- Model of `scrape_subreddit`: the loop starts at page 1 with enough
fuel that the `page_num <= max_pages` guard, not the fuel, ends it. -/
def scrape_subreddit (env : CrawlEnv) (cfg : Config) (language start_url : String)
    (s : RunState) : RunState :=
  scrapeLoop env cfg language (cfg.maxPages + 1) start_url 1 s

/-- The `PROGRAMMING_LANGUAGES` table (lines 51-67), keyed subreddit lists. -/
def languageSubreddits (key : String) : Option (List String) :=
  if key = "r" then some ["rlanguage", "Rlanguage", "rprogramming", "RStudio", "statistics"]
  else if key = "rust" then some ["rust", "rust_gamedev", "learnrust"]
  else if key = "go" then some ["golang", "learngolang"]
  else none

/-- Seed listing location for a subreddit (line 182). -/
def subredditUrl (sub : String) : String :=
  "https://www.reddit.com/r/" ++ sub ++ "/hot/"

/-- The per-language subreddit loop of `start_analysis` (lines 181-197):
scrape each seed, stopping early once the language reached its budget. -/
def processSubreddits (env : CrawlEnv) (cfg : Config) (language : String) :
    List String → RunState → RunState
  | [], s => s
  | sub :: rest, s =>
    let s1 := scrape_subreddit env cfg language (subredditUrl sub) s
    if cfg.maxPosts ≤ s1.postCount language then s1
    else processSubreddits env cfg language rest s1

/-- The language loop of `start_analysis` (lines 173-202): unknown
languages are skipped. -/
def runLanguages (env : CrawlEnv) (cfg : Config) :
    List String → RunState → RunState
  | [], s => s
  | lang :: rest, s =>
    match languageSubreddits lang with
    | some subs => runLanguages env cfg rest (processSubreddits env cfg lang subs s)
    | none => runLanguages env cfg rest s

/-- The crawl portion of a whole run, from the freshly initialised state. -/
def crawlRun (env : CrawlEnv) (cfg : Config) : RunState :=
  runLanguages env cfg cfg.languages initState

/-! ### Session lifecycle of `start_analysis` -/

/-- How `setup_driver` ends: success, a fault before the driver is
assigned (`self.driver` stays `None`), or a fault after assignment. -/
inductive SetupOutcome where
  | ok
  | failEarly
  | failLate
deriving DecidableEq

/-- Observable lifecycle events of one run: acquiring the rendering
session, the emergency snapshot write (with the accumulated per-topic
sequences it flushes), and releasing the session. -/
inductive RunEvent where
  | sessionAcquired
  | emergencySave (snapshot : String → List PostDict)
  | sessionReleased

/-- Lifecycle of `start_analysis` (lines 160-226): the body runs inside
`try`; any `Exception` reaches the `except` branch, which attempts the
emergency save of `all_posts`; the `finally` branch quits the driver
whenever it was assigned.  `fault` injects an unhandled error after the
first `k` languages of the loop were processed (`none` means a clean
run). -/
def start_analysis_events (env : CrawlEnv) (cfg : Config)
    (setup : SetupOutcome) (fault : Option Nat) : List RunEvent :=
  match setup with
  | .failEarly => [.emergencySave initState.allPosts]
  | .failLate => [.sessionAcquired, .emergencySave initState.allPosts, .sessionReleased]
  | .ok =>
    match fault with
    | none => [.sessionAcquired, .sessionReleased]
    | some k =>
      [.sessionAcquired,
       .emergencySave ((runLanguages env cfg (cfg.languages.take k) initState).allPosts),
       .sessionReleased]


/-! ### Derived strategy outcomes and invariants used by the theorems -/

/-- Net outcome of the votes strategies of `_extract_post_metadata`: the
first found element's stripped text, else the truthy JavaScript result. -/
def votesResult (dom : Dom) : Option String :=
  match firstFoundCss dom vote_selectors with
  | some v => some v
  | none => truthy dom.jsVotes

/-- Net outcome of the comment-count strategies of
`_extract_post_metadata`. -/
def commentsResult (dom : Dom) : Option String :=
  match firstFoundCss dom comment_selectors with
  | some v => some v
  | none => truthy dom.jsComments

/-- Combined inductive invariant of the crawl state: the visited set is
exactly the navigation log (every insertion is paired with a navigation),
it has no duplicates, and each language's counter equals the length of its
post sequence and stays within the post budget. -/
def stateInv (cfg : Config) (s : RunState) : Prop :=
  s.visited = s.navLog ∧ s.visited.Nodup ∧
  (∀ l, s.postCount l = (s.allPosts l).length) ∧
  (∀ l, s.postCount l ≤ cfg.maxPosts)

/-! ### Concrete environments used by witnesses and counterexamples -/

/-- A rendered post page on which every extraction strategy fails. -/
def emptyDom : Dom :=
  { css := fun _ => none, jsTitle := none, jsAuthor := none, jsDate := none,
    jsContent := none, jsVotes := none, jsComments := none,
    paragraphs := [], urlHash := fun _ => 0 }

/-- A listing page with no pagination controls and no scroll growth. -/
def pageEnvAllFail (u : String) : PageEnv :=
  { elem := fun _ => .absent, loadMore := fun _ => false,
    urlAfterNextClick := "", urlAfterLoadMore := "",
    oldCount := 0, newCount := 0, currentUrl := u }

/-- A listing page with no controls whose probe scroll grows the item
count, so that the resolver answers with the unchanged current location. -/
def pageEnvScroll (u : String) : PageEnv := { pageEnvAllFail u with newCount := 1 }

/-- A crawl environment whose pages yield nothing anywhere. -/
def envBare : CrawlEnv :=
  { pageFails := fun _ => false, postFound := fun _ => true,
    postLinks := fun _ => [], postLinksRetry := fun _ => [],
    navFails := fun _ => false, domFor := fun _ => emptyDom,
    pageEnv := fun u => pageEnvAllFail u, nowFor := fun _ => "2026-01-01T00:00:00",
    scorer := fun _ => zeroSent }

/-- The bare environment with infinite-scroll listings everywhere. -/
def envScroll : CrawlEnv := { envBare with pageEnv := fun u => pageEnvScroll u }

/-- The pagination environment of the `page=3` scenario: no controls, no
scroll growth, current location carrying `page=3`. -/
def envPage3 : PageEnv := pageEnvAllFail "https://www.reddit.com/r/rust/hot/?page=3"

/-- The default configuration values of the source (`MAX_PAGES` 3,
`MAX_POSTS` 20, languages r, go, rust). -/
def cfgDefault : Config := { maxPages := 3, maxPosts := 20, languages := ["r", "go", "rust"] }


/-! ### Lemmas and claim theorems -/

theorem dictGet_dictSet_self (d : PostDict) (k : String) (v : Val) :
    dictGet (dictSet d k v) k = some v := by
  induction d with
  | nil => simp [dictSet, dictGet]
  | cons kv rest ih =>
    obtain ⟨k2, v2⟩ := kv
    by_cases h : k2 = k <;> simp [dictSet, dictGet, h, ih]

theorem dictGet_dictSet_ne (d : PostDict) {k key : String} (v : Val) (h : k ≠ key) :
    dictGet (dictSet d key v) k = dictGet d k := by
  induction d with
  | nil => simp [dictSet, dictGet, h, Ne.symm h]
  | cons kv rest ih =>
    obtain ⟨k2, v2⟩ := kv
    by_cases h2 : k2 = key <;> by_cases h3 : k2 = k <;>
      simp_all [dictSet, dictGet, Ne.symm h]





theorem metaVotesStep_get_ne (dom : Dom) (d : PostDict) {k : String}
    (hv : k ≠ "votes") :
    dictGet (metaVotesStep dom d) k = dictGet d k := by
  simp only [metaVotesStep]
  repeat' split
  all_goals simp [dictGet_dictSet_ne, hv]

theorem metaCommentsStep_get_ne (dom : Dom) (d : PostDict) {k : String}
    (hc : k ≠ "comments_count") :
    dictGet (metaCommentsStep dom d) k = dictGet d k := by
  simp only [metaCommentsStep]
  repeat' split
  all_goals simp [dictGet_dictSet_ne, hc]

theorem metaVotesStep_votes (dom : Dom) (d : PostDict) (h : hasKey d "votes" = false) :
    dictGet (metaVotesStep dom d) "votes" = (votesResult dom).map Val.str := by
  simp only [metaVotesStep, votesResult]
  cases h1 : firstFoundCss dom vote_selectors with
  | some v =>
    have hk : hasKey (dictSet d "votes" (.str v)) "votes" = true := by
      simp [hasKey, dictGet_dictSet_self]
    simp [hk, dictGet_dictSet_self]
  | none =>
    simp only [hasKey] at h
    cases h2 : truthy dom.jsVotes <;>
      simp_all [hasKey, dictGet_dictSet_self, Option.not_isSome_iff_eq_none]

theorem metaCommentsStep_comments (dom : Dom) (d : PostDict)
    (h : hasKey d "comments_count" = false) :
    dictGet (metaCommentsStep dom d) "comments_count" = (commentsResult dom).map Val.str := by
  simp only [metaCommentsStep, commentsResult]
  cases h1 : firstFoundCss dom comment_selectors with
  | some v =>
    have hk : hasKey (dictSet d "comments_count" (.str v)) "comments_count" = true := by
      simp [hasKey, dictGet_dictSet_self]
    simp [hk, dictGet_dictSet_self]
  | none =>
    simp only [hasKey] at h
    cases h2 : truthy dom.jsComments <;>
      simp_all [hasKey, dictGet_dictSet_self, Option.not_isSome_iff_eq_none]
theorem pdf_eq (dom : Dom) (post_url language now : String) :
    post_data_fields dom post_url language now =
      [("post_id", Val.str (extract_post_id dom.urlHash post_url)),
       ("post_url", Val.str post_url),
       ("language", Val.str language),
       ("scraped_at", Val.str now),
       ("title", Val.str (extract_post_title dom post_url (extract_post_id dom.urlHash post_url))),
       ("author", Val.str (extract_post_author dom)),
       ("subreddit", Val.str (extract_post_subreddit dom post_url)),
       ("post_date", Val.str (extract_post_date dom)),
       ("content", Val.str (extract_post_text_content dom))] := by
  simp [post_data_fields, dictSet]

theorem bpd_get_base (dom : Dom) (scorer : String → Sent) (post_url language now : String)
    {k : String} (hs : k ≠ "sentiment") (hv : k ≠ "votes") (hc : k ≠ "comments_count") :
    dictGet (build_post_data dom scorer post_url language now) k =
      dictGet (post_data_fields dom post_url language now) k := by
  simp only [build_post_data]
  rw [dictGet_dictSet_ne _ _ hs, extract_post_metadata,
      metaCommentsStep_get_ne _ _ hc, metaVotesStep_get_ne _ _ hv]

theorem bpd_votes (dom : Dom) (scorer : String → Sent) (post_url language now : String) :
    dictGet (build_post_data dom scorer post_url language now) "votes" =
      (votesResult dom).map Val.str := by
  simp only [build_post_data]
  rw [dictGet_dictSet_ne _ _ (by decide : ("votes" : String) ≠ "sentiment"),
      extract_post_metadata, metaCommentsStep_get_ne _ _ (by decide)]
  refine metaVotesStep_votes _ _ ?_
  simp only [hasKey]
  rw [pdf_eq]
  simp [dictGet]

theorem bpd_comments (dom : Dom) (scorer : String → Sent) (post_url language now : String) :
    dictGet (build_post_data dom scorer post_url language now) "comments_count" =
      (commentsResult dom).map Val.str := by
  simp only [build_post_data]
  rw [dictGet_dictSet_ne _ _ (by decide : ("comments_count" : String) ≠ "sentiment"),
      extract_post_metadata]
  refine metaCommentsStep_comments _ _ ?_
  simp only [hasKey]
  rw [metaVotesStep_get_ne _ _ (by decide), pdf_eq]
  simp [dictGet]

/-- C7: for every extracted item the sentiment record is computed from the
body text when it is non-empty, otherwise from the title when that is
non-empty, otherwise it is the zero vector. -/
theorem c7_sentiment_source (dom : Dom) (scorer : String → Sent) (post_url language now : String) :
    dictGet (build_post_data dom scorer post_url language now) "sentiment" =
      some (.sent (
        if extract_post_text_content dom = "" then
          (if extract_post_title dom post_url (extract_post_id dom.urlHash post_url) = "" then
            zeroSent
           else scorer (extract_post_title dom post_url (extract_post_id dom.urlHash post_url)))
        else scorer (extract_post_text_content dom))) := by
  have hcont : dictGet (extract_post_metadata dom (post_data_fields dom post_url language now))
      "content" = some (.str (extract_post_text_content dom)) := by
    rw [extract_post_metadata, metaCommentsStep_get_ne _ _ (by decide),
        metaVotesStep_get_ne _ _ (by decide), pdf_eq]
    simp [dictGet]
  have htit : dictGet (extract_post_metadata dom (post_data_fields dom post_url language now))
      "title" = some (.str (extract_post_title dom post_url (extract_post_id dom.urlHash post_url))) := by
    rw [extract_post_metadata, metaCommentsStep_get_ne _ _ (by decide),
        metaVotesStep_get_ne _ _ (by decide), pdf_eq]
    simp [dictGet]
  simp only [build_post_data]
  rw [dictGet_dictSet_self, hcont, htit]
  by_cases h1 : extract_post_text_content dom = "" <;>
    by_cases h2 : extract_post_title dom post_url (extract_post_id dom.urlHash post_url) = "" <;>
    simp [truthyVal, h1, h2, analyze_sentiment]

/-- C1 (amended): `_extract_post_content` either returns none or a record
in which post id, url, topic, scrape time, title, author, community,
timestamp, body text and sentiment are always present (with sentinel
defaults); the votes and comment-count fields, however, are present
exactly when one of their extraction strategies produced a value — on
total strategy failure those two keys are absent, with no sentinel. -/
theorem c1_extract_fields (env : CrawlEnv) (post_url language : String) (s : RunState) :
    (extract_post_content env post_url language s).1 = none ∨
    ∃ d, (extract_post_content env post_url language s).1 = some d ∧
      (hasKey d "post_id" = true ∧ hasKey d "post_url" = true ∧
       hasKey d "language" = true ∧ hasKey d "scraped_at" = true ∧
       hasKey d "title" = true ∧ hasKey d "author" = true ∧
       hasKey d "subreddit" = true ∧ hasKey d "post_date" = true ∧
       hasKey d "content" = true ∧ hasKey d "sentiment" = true) ∧
      hasKey d "votes" = (votesResult (env.domFor post_url)).isSome ∧
      hasKey d "comments_count" = (commentsResult (env.domFor post_url)).isSome := by
  unfold extract_post_content
  split
  · left; rfl
  · split
    · left; rfl
    · right
      refine ⟨_, rfl, ⟨?_, ?_, ?_, ?_, ?_, ?_, ?_, ?_, ?_, ?_⟩, ?_, ?_⟩
      case _ : hasKey _ "sentiment" = true =>
        simp only [hasKey, build_post_data]
        rw [dictGet_dictSet_self]
        rfl
      case _ : hasKey _ "votes" = _ =>
        simp only [hasKey]
        rw [bpd_votes]
        cases votesResult (env.domFor post_url) <;> rfl
      case _ : hasKey _ "comments_count" = _ =>
        simp only [hasKey]
        rw [bpd_comments]
        cases commentsResult (env.domFor post_url) <;> rfl
      all_goals
        simp only [hasKey]
        rw [bpd_get_base _ _ _ _ _ (by decide) (by decide) (by decide), pdf_eq]
        simp [dictGet]







/-- C1 counterexample: on a page where every strategy fails,
`_extract_post_content` returns a record (not none) that is missing both
the `votes` and the `comments_count` fields, contradicting the claim that
every returned record carries all fields. -/
theorem c1_counterexample :
    (extract_post_content envBare "u" "r" initState).1.isSome = true ∧
    hasKey (((extract_post_content envBare "u" "r" initState).1).getD []) "votes" = false ∧
    hasKey (((extract_post_content envBare "u" "r" initState).1).getD []) "comments_count" = false := by
  refine ⟨rfl, rfl, rfl⟩

theorem ftf_isSome (env : PageEnv)
    (h1 : nextFromSelectors env next_button_selectors = none)
    (h2 : loadMoreHit env load_more_selectors = false)
    (h3 : env.newCount ≤ env.oldCount) :
    (find_next_page_or_load_more env).isSome = true := by
  unfold find_next_page_or_load_more
  rw [h1, h2]
  have h4 : ¬ env.oldCount < env.newCount := by omega
  simp only [Bool.false_eq_true, if_false, h4]
  split
  · simp
  · split <;> simp

/-- C2 counterexample: there is no input on which the first three
pagination strategies fail and the resolver returns none — the claim that
such inputs exist is false, because the URL-pattern increment always
produces a location. -/
theorem c2_counterexample :
    (∃ env : PageEnv, firstThreeFail env ∧ find_next_page_or_load_more env = none) = False := by
  simp only [eq_iff_iff, iff_false]
  rintro ⟨env, ⟨h1, h2, h3⟩, hn⟩
  have := ftf_isSome env h1 h2 h3
  rw [hn] at this
  simp at this

/-- C2 (amended): absent driver faults, the pagination resolver returns
none exactly when the first matching non-disabled next control is a link
whose location target is missing; in particular, when all four strategies'
lookups fail it still returns a URL, since the URL-pattern increment
always succeeds. -/
theorem c2_resolver_none_iff (env : PageEnv) :
    find_next_page_or_load_more env = none ↔
      nextFromSelectors env next_button_selectors = some none := by
  unfold find_next_page_or_load_more
  cases h : nextFromSelectors env next_button_selectors with
  | some r =>
    cases r <;> simp
  | none =>
    simp only [reduceCtorEq, iff_false]
    intro hn
    split at hn
    · exact Option.noConfusion hn
    · split at hn
      · exact Option.noConfusion hn
      · split at hn <;> first | exact Option.noConfusion hn | skip
        split at hn <;> exact Option.noConfusion hn

/-- C8: when the first three pagination strategies fail, the resolver
applies the URL-pattern increment: a location with a numeric `page`
parameter is returned with every such parameter incremented from the
first match, and a location without one gets `page=2` appended with `&`
when a query string exists and `?` otherwise. -/
theorem c8_url_increment (env : PageEnv) (n : Nat) (h : firstThreeFail env) :
    (page_search env.currentUrl = some n →
      find_next_page_or_load_more env = some (page_sub env.currentUrl (n + 1))) ∧
    (page_search env.currentUrl = none → env.currentUrl.data.contains '?' = true →
      find_next_page_or_load_more env = some (env.currentUrl ++ "&page=2")) ∧
    (page_search env.currentUrl = none → env.currentUrl.data.contains '?' = false →
      find_next_page_or_load_more env = some (env.currentUrl ++ "?page=2")) := by
  obtain ⟨h1, h2, h3⟩ := h
  unfold find_next_page_or_load_more
  rw [h1, h2]
  have h4 : ¬ env.oldCount < env.newCount := by omega
  simp only [Bool.false_eq_true, if_false, h4]
  refine ⟨fun hs => by rw [hs], fun hs hq => ?_, fun hs hq => ?_⟩
  · have hq2 : '?' ∈ env.currentUrl.data := by simpa using hq
    rw [hs]
    simp [hq2]
  · have hq2 : '?' ∉ env.currentUrl.data := by simpa using hq
    rw [hs]
    simp [hq2]



/-- C8 witness: on a concrete location carrying `page=3` with no controls
and no scroll growth, the resolver returns the same location with
`page=4`. -/
theorem c8_witness :
    firstThreeFail envPage3 ∧
    find_next_page_or_load_more envPage3 = some "https://www.reddit.com/r/rust/hot/?page=4" := by
  have hf : firstThreeFail envPage3 := ⟨rfl, rfl, by decide⟩
  refine ⟨hf, ?_⟩
  have h := (c8_url_increment envPage3 3 hf).1 (by rfl)
  rw [h]
  rfl

/-- C9: `analyze_sentiment` returns the zero vector on the
`None`-equivalent and on the empty string, for every scorer. -/
theorem c9_score_empty_zero (scorer : String → Sent) :
    analyze_sentiment scorer none = zeroSent ∧
    analyze_sentiment scorer (some "") = zeroSent :=
  ⟨rfl, by simp [analyze_sentiment]⟩



theorem initState_inv (cfg : Config) : stateInv cfg initState :=
  ⟨rfl, List.nodup_nil, fun _ => rfl, fun _ => Nat.zero_le _⟩

theorem extract_frame (env : CrawlEnv) (u lang : String) (s : RunState) :
    ((extract_post_content env u lang s).2).resolverCalls = s.resolverCalls ∧
    ((extract_post_content env u lang s).2).listingLog = s.listingLog ∧
    ((extract_post_content env u lang s).2).postCount = s.postCount := by
  unfold extract_post_content
  split
  · exact ⟨rfl, rfl, rfl⟩
  · split <;> exact ⟨rfl, rfl, rfl⟩

theorem extract_inv (env : CrawlEnv) (cfg : Config) (u lang : String) (s : RunState)
    (h : stateInv cfg s) : stateInv cfg (extract_post_content env u lang s).2 := by
  obtain ⟨h1, h2, h3, h4⟩ := h
  unfold extract_post_content
  split
  · exact ⟨h1, h2, h3, h4⟩
  · next hvis =>
    split <;>
      exact ⟨by simp only [navPost, h1], List.nodup_cons.mpr ⟨hvis, h2⟩, h3, h4⟩

theorem appendPost_inv (cfg : Config) (lang : String) (d : PostDict) (s : RunState)
    (h : stateInv cfg s) (hc : s.postCount lang < cfg.maxPosts) :
    stateInv cfg (appendPost lang d s) := by
  obtain ⟨h1, h2, h3, h4⟩ := h
  refine ⟨h1, h2, fun l => ?_, fun l => ?_⟩
  · by_cases hl : l = lang
    · subst hl; simp [appendPost, h3 l]
    · simp [appendPost, hl, h3 l]
  · by_cases hl : l = lang
    · subst hl; simp [appendPost]; omega
    · simp [appendPost, hl]; exact h4 l

theorem processPosts_frame (env : CrawlEnv) (cfg : Config) (lang : String) :
    ∀ (links : List String) (s : RunState),
    (processPosts env cfg lang links s).resolverCalls = s.resolverCalls ∧
    (processPosts env cfg lang links s).listingLog = s.listingLog := by
  intro links
  induction links with
  | nil => intro s; exact ⟨rfl, rfl⟩
  | cons u rest ih =>
    intro s
    unfold processPosts
    split
    · exact ⟨rfl, rfl⟩
    · split
      · exact ih s
      · obtain ⟨e1, e2, _⟩ := extract_frame env u lang s
        split
        · next d s1 heq =>
          obtain ⟨i1, i2⟩ := ih (appendPost lang d s1)
          have hs1 : s1 = (extract_post_content env u lang s).2 := by rw [heq]
          constructor
          · rw [i1]; simp only [appendPost]; rw [hs1, e1]
          · rw [i2]; simp only [appendPost]; rw [hs1, e2]
        · next s1 heq =>
          obtain ⟨i1, i2⟩ := ih s1
          have hs1 : s1 = (extract_post_content env u lang s).2 := by rw [heq]
          exact ⟨by rw [i1, hs1, e1], by rw [i2, hs1, e2]⟩

theorem processPosts_inv (env : CrawlEnv) (cfg : Config) (lang : String) :
    ∀ (links : List String) (s : RunState), stateInv cfg s →
    stateInv cfg (processPosts env cfg lang links s) := by
  intro links
  induction links with
  | nil => intro s h; exact h
  | cons u rest ih =>
    intro s h
    unfold processPosts
    split
    · exact h
    · next hcnt =>
      split
      · exact ih s h
      · have hinv1 := extract_inv env cfg u lang s h
        obtain ⟨_, _, hpc⟩ := extract_frame env u lang s
        split
        · next d s1 heq =>
          have hs1 : s1 = (extract_post_content env u lang s).2 := by rw [heq]
          refine ih _ (appendPost_inv cfg lang d s1 (hs1 ▸ hinv1) ?_)
          rw [hs1, hpc]
          omega
        · next s1 heq =>
          have hs1 : s1 = (extract_post_content env u lang s).2 := by rw [heq]
          exact ih s1 (hs1 ▸ hinv1)

theorem navListing_inv (cfg : Config) (url : String) (s : RunState)
    (hvis : url ∉ s.visited) (h : stateInv cfg s) : stateInv cfg (navListing url s) := by
  obtain ⟨h1, h2, h3, h4⟩ := h
  exact ⟨by simp only [navListing, h1], List.nodup_cons.mpr ⟨hvis, h2⟩, h3, h4⟩

theorem scrapeStep_cases (env : CrawlEnv) (cfg : Config) (lang url : String) (s : RunState) :
    (scrapeStep env cfg lang url s).1 = navListing url s ∨
    ∃ links : List String, (scrapeStep env cfg lang url s).1 =
      { processPosts env cfg lang links (navListing url s) with
        resolverCalls := (processPosts env cfg lang links (navListing url s)).resolverCalls + 1 } := by
  simp only [scrapeStep]
  repeat' split
  all_goals first
    | (left; rfl)
    | (right; exact ⟨_, rfl⟩)

theorem stateInv_rc (cfg : Config) (s : RunState) (n : Nat) (h : stateInv cfg s) :
    stateInv cfg { s with resolverCalls := n } := h

theorem scrapeStep_inv (env : CrawlEnv) (cfg : Config) (lang url : String) (s : RunState)
    (hvis : url ∉ s.visited) (h : stateInv cfg s) :
    stateInv cfg (scrapeStep env cfg lang url s).1 := by
  rcases scrapeStep_cases env cfg lang url s with heq | ⟨links, heq⟩ <;> rw [heq]
  · exact navListing_inv cfg url s hvis h
  · exact stateInv_rc cfg _ _
      (processPosts_inv env cfg lang links _ (navListing_inv cfg url s hvis h))

theorem scrapeLoop_inv (env : CrawlEnv) (cfg : Config) (lang : String) :
    ∀ (fuel : Nat) (url : String) (pn : Nat) (s : RunState), stateInv cfg s →
    stateInv cfg (scrapeLoop env cfg lang fuel url pn s) := by
  intro fuel
  induction fuel with
  | zero => intro url pn s h; exact h
  | succ fuel ih =>
    intro url pn s h
    unfold scrapeLoop
    split
    · split
      · exact h
      · next hvis =>
        have hstep := scrapeStep_inv env cfg lang url s hvis h
        split
        · next s' u heq =>
          have hs' : s' = (scrapeStep env cfg lang url s).1 := by rw [heq]
          exact ih u (pn + 1) s' (hs' ▸ hstep)
        · next s' heq =>
          have hs' : s' = (scrapeStep env cfg lang url s).1 := by rw [heq]
          exact hs' ▸ hstep
    · exact h

theorem scrape_subreddit_inv (env : CrawlEnv) (cfg : Config) (lang url : String)
    (s : RunState) (h : stateInv cfg s) :
    stateInv cfg (scrape_subreddit env cfg lang url s) :=
  scrapeLoop_inv env cfg lang (cfg.maxPages + 1) url 1 s h

theorem processSubreddits_inv (env : CrawlEnv) (cfg : Config) (lang : String) :
    ∀ (subs : List String) (s : RunState), stateInv cfg s →
    stateInv cfg (processSubreddits env cfg lang subs s) := by
  intro subs
  induction subs with
  | nil => intro s h; exact h
  | cons sub rest ih =>
    intro s h
    simp only [processSubreddits]
    split
    · exact scrape_subreddit_inv env cfg lang _ s h
    · exact ih _ (scrape_subreddit_inv env cfg lang _ s h)

theorem runLanguages_inv (env : CrawlEnv) (cfg : Config) :
    ∀ (langs : List String) (s : RunState), stateInv cfg s →
    stateInv cfg (runLanguages env cfg langs s) := by
  intro langs
  induction langs with
  | nil => intro s h; exact h
  | cons lang rest ih =>
    intro s h
    unfold runLanguages
    split
    · exact ih _ (processSubreddits_inv env cfg lang _ s h)
    · exact ih s h

theorem crawlRun_inv (env : CrawlEnv) (cfg : Config) : stateInv cfg (crawlRun env cfg) :=
  runLanguages_inv env cfg cfg.languages initState (initState_inv cfg)

theorem scrapeStep_rc (env : CrawlEnv) (cfg : Config) (lang url : String) (s : RunState) :
    ((scrapeStep env cfg lang url s).1).resolverCalls ≤ s.resolverCalls + 1 := by
  rcases scrapeStep_cases env cfg lang url s with heq | ⟨links, heq⟩ <;> rw [heq]
  · simp [navListing]
  · have := (processPosts_frame env cfg lang links (navListing url s)).1
    simp only []
    rw [this]
    simp [navListing]

theorem scrapeStep_listingLog (env : CrawlEnv) (cfg : Config) (lang url : String)
    (s : RunState) :
    ((scrapeStep env cfg lang url s).1).listingLog = url :: s.listingLog := by
  rcases scrapeStep_cases env cfg lang url s with heq | ⟨links, heq⟩ <;> rw [heq]
  · rfl
  · have := (processPosts_frame env cfg lang links (navListing url s)).2
    simp only []
    rw [this]
    rfl

theorem scrapeLoop_rc (env : CrawlEnv) (cfg : Config) (lang : String) :
    ∀ (fuel : Nat) (url : String) (pn : Nat) (s : RunState), pn ≤ cfg.maxPages + 1 →
    (scrapeLoop env cfg lang fuel url pn s).resolverCalls ≤
      s.resolverCalls + (cfg.maxPages + 1 - pn) := by
  intro fuel
  induction fuel with
  | zero => intro url pn s _; exact Nat.le_add_right _ _
  | succ fuel ih =>
    intro url pn s hpn
    unfold scrapeLoop
    split
    · next hguard =>
      obtain ⟨_, hpm, _⟩ := hguard
      split
      · exact Nat.le_add_right _ _
      · have hrc := scrapeStep_rc env cfg lang url s
        split
        · next s' u heq =>
          have hs' : s' = (scrapeStep env cfg lang url s).1 := by rw [heq]
          have h2 := ih u (pn + 1) s' (by omega)
          have h3 : s'.resolverCalls ≤ s.resolverCalls + 1 := by rw [hs']; exact hrc
          omega
        · next s' heq =>
          have hs' : s' = (scrapeStep env cfg lang url s).1 := by rw [heq]
          have h3 : s'.resolverCalls ≤ s.resolverCalls + 1 := by rw [hs']; exact hrc
          omega
    · exact Nat.le_add_right _ _

theorem scrapeStep_echo (env : CrawlEnv) (cfg : Config) (lang url : String) (s : RunState)
    (h : find_next_page_or_load_more (env.pageEnv url) = some url) :
    (scrapeStep env cfg lang url s).2 = none := by
  simp only [scrapeStep]
  repeat' split
  all_goals try rfl
  all_goals
    next u heq hne =>
      rw [h] at heq
      injection heq with huu
      exact absurd huu.symm hne.2

/-- C3: one topic's pagination loop in `scrape_subreddit` makes at most
`maxPages` pagination-resolver calls, for every environment — in
particular even when the resolver returns a fresh URL on every call. -/
theorem c3_pagination_bound (env : CrawlEnv) (cfg : Config) (lang start_url : String) (s : RunState) :
    (scrape_subreddit env cfg lang start_url s).resolverCalls ≤
      s.resolverCalls + cfg.maxPages := by
  have h := scrapeLoop_rc env cfg lang (cfg.maxPages + 1) start_url 1 s (by omega)
  unfold scrape_subreddit
  omega

/-- C4: across an entire run from the initial state, the visited set
equals the navigation log — every URL is added exactly when it is
navigated, before processing — and it contains no duplicates, so no
listing is fetched and no item extracted twice or for an
already-visited URL. -/
theorem c4_visited_once (env : CrawlEnv) (cfg : Config) :
    (crawlRun env cfg).visited = (crawlRun env cfg).navLog ∧
    (crawlRun env cfg).visited.Nodup :=
  ⟨(crawlRun_inv env cfg).1, (crawlRun_inv env cfg).2.1⟩

/-- C5: at the end of every run each language's post counter equals the
length of its accumulated sequence and never exceeds the post budget
(both invariants are established inductively over every step of the run),
and a successful extraction appends exactly one item while incrementing
the counter by exactly one. -/
theorem c5_counter_matches_sequence (env : CrawlEnv) (cfg : Config) (l : String) (d : PostDict) (s : RunState) :
    (crawlRun env cfg).postCount l = ((crawlRun env cfg).allPosts l).length ∧
    (crawlRun env cfg).postCount l ≤ cfg.maxPosts ∧
    (appendPost l d s).postCount l = s.postCount l + 1 ∧
    (appendPost l d s).allPosts l = s.allPosts l ++ [d] := by
  refine ⟨(crawlRun_inv env cfg).2.2.1 l, (crawlRun_inv env cfg).2.2.2 l, ?_, ?_⟩ <;>
    simp [appendPost]

/-- C10: whenever the pagination resolver answers with a location equal
to the current one — as the infinite-scroll and load-more strategies do
when the URL does not change — the `scrape_subreddit` loop fetches no
further listing page for that topic. -/
theorem c10_same_url_stops (env : CrawlEnv) (cfg : Config) (lang : String) (fuel pn : Nat)
    (url : String) (s : RunState)
    (h : find_next_page_or_load_more (env.pageEnv url) = some url) :
    ((scrapeLoop env cfg lang fuel url pn s).listingLog).length ≤
      s.listingLog.length + 1 := by
  cases fuel with
  | zero => simp [scrapeLoop]
  | succ fuel =>
    unfold scrapeLoop
    split
    · split
      · simp
      · have he := scrapeStep_echo env cfg lang url s h
        split
        · next s' u heq =>
          rw [heq] at he
          exact absurd he (by simp)
        · next s' heq =>
          have h2 := scrapeStep_listingLog env cfg lang url s
          rw [heq] at h2
          have h3 : s'.listingLog = url :: s.listingLog := h2
          rw [h3]
          simp
    · simp







/-- C10 witness: in a concrete environment whose resolver always echoes
the current location (infinite scroll), the loop fetches at most one
listing. -/
theorem c10_witness :
    find_next_page_or_load_more (envScroll.pageEnv "https://a") = some "https://a" ∧
    ((scrapeLoop envScroll cfgDefault "r" 4 "https://a" 1 initState).listingLog).length ≤
      initState.listingLog.length + 1 :=
  ⟨rfl, c10_same_url_stops envScroll cfgDefault "r" 4 1 "https://a" initState rfl⟩

/-- C6: on every exit path of `start_analysis` on which the rendering
session was acquired, releasing it is the last lifecycle event; and any
unhandled error escaping the per-topic loop triggers an emergency
snapshot write of all accumulated per-topic sequences before the run
ends. -/
theorem c6_session_release_and_snapshot (env : CrawlEnv) (cfg : Config) (setup : SetupOutcome) (fault : Option Nat) :
    (RunEvent.sessionAcquired ∈ start_analysis_events env cfg setup fault →
      (start_analysis_events env cfg setup fault).getLast? = some RunEvent.sessionReleased) ∧
    (∀ k, fault = some k → setup = SetupOutcome.ok →
      RunEvent.emergencySave ((runLanguages env cfg (cfg.languages.take k) initState).allPosts) ∈
        start_analysis_events env cfg setup fault) := by
  constructor
  · intro hm
    cases setup <;> cases fault <;> simp_all [start_analysis_events]
  · intro k hk hok
    subst hk
    subst hok
    exact List.mem_cons_of_mem _ (List.mem_cons_self _ _)

/-- C6 witness: a concrete faulting run (after two languages) ends with
the session released and contains the emergency snapshot of the state
accumulated so far. -/
theorem c6_witness :
    (start_analysis_events envBare cfgDefault SetupOutcome.ok (some 2)).getLast? =
      some RunEvent.sessionReleased ∧
    RunEvent.emergencySave
        ((runLanguages envBare cfgDefault (cfgDefault.languages.take 2) initState).allPosts) ∈
      start_analysis_events envBare cfgDefault SetupOutcome.ok (some 2) :=
  ⟨(c6_session_release_and_snapshot envBare cfgDefault SetupOutcome.ok (some 2)).1 (List.mem_cons_self _ _),
   (c6_session_release_and_snapshot envBare cfgDefault SetupOutcome.ok (some 2)).2 2 rfl rfl⟩


end RedditScraper
